import Mathlib

/-!
Shallow embedding of the task-manage backend core
(src/backend/routes/task.routes.js, src/backend/middleware/auth.middleware.js,
src/backend/models/task.model.js, src/backend/models/notification.model.js),
together with theorems settling the specification claims about it.
-/

namespace TaskManage

abbrev UserId := Nat
abbrev TaskId := Nat

inductive Role
  | admin
  | manager
  | user
deriving DecidableEq

inductive Status
  | todo
  | inProgress
  | review
  | completed
deriving DecidableEq

inductive Priority
  | low
  | medium
  | high
  | urgent
deriving DecidableEq

inductive RecurringType
  | daily
  | weekly
  | monthly
  | none
deriving DecidableEq

/-- The string form of a status, as it appears in notification messages. -/
def statusStr : Status → String
  | Status.todo => "todo"
  | Status.inProgress => "in-progress"
  | Status.review => "review"
  | Status.completed => "completed"

/-- Calendar timestamp in the timezone-naive representation the routes use:
JS-style zero-based month, one-based day, and milliseconds within the day. -/
structure DateTime where
  year : Int
  month : Nat
  day : Nat
  msOfDay : Nat
deriving DecidableEq

def isLeapYear (y : Int) : Bool :=
  (y % 4 == 0 && y % 100 != 0) || y % 400 == 0

def daysInMonth (y : Int) (m : Nat) : Nat :=
  if m == 1 then (if isLeapYear y then 29 else 28)
  else if m == 3 || m == 5 || m == 8 || m == 10 then 30
  else 31

def DateTime.addOneDay (d : DateTime) : DateTime :=
  if d.day + 1 ≤ daysInMonth d.year d.month then { d with day := d.day + 1 }
  else if d.month + 1 ≤ 11 then { d with month := d.month + 1, day := 1 }
  else { d with year := d.year + 1, month := 0, day := 1 }

def DateTime.addDays : DateTime → Nat → DateTime
  | d, 0 => d
  | d, n + 1 => DateTime.addDays d.addOneDay n

/-- JS `setMonth(getMonth() + 1)`: advance the month, rolling an overflowing
day-of-month into the following month as JS Date normalization does. -/
def DateTime.addOneMonth (d : DateTime) : DateTime :=
  let y := if d.month + 1 ≤ 11 then d.year else d.year + 1
  let m := if d.month + 1 ≤ 11 then d.month + 1 else 0
  if d.day ≤ daysInMonth y m then
    { year := y, month := m, day := d.day, msOfDay := d.msOfDay }
  else if m + 1 ≤ 11 then
    { year := y, month := m + 1, day := d.day - daysInMonth y m, msOfDay := d.msOfDay }
  else
    { year := y + 1, month := 0, day := d.day - daysInMonth y m, msOfDay := d.msOfDay }

def DateTime.leb (a b : DateTime) : Bool :=
  if a.year != b.year then decide (a.year < b.year)
  else if a.month != b.month then decide (a.month < b.month)
  else if a.day != b.day then decide (a.day < b.day)
  else decide (a.msOfDay ≤ b.msOfDay)

def DateTime.ltb (a b : DateTime) : Bool :=
  !(DateTime.leb b a)

/-- JS `setHours(0, 0, 0, 0)` on a date. -/
def startOfDay (d : DateTime) : DateTime :=
  { d with msOfDay := 0 }

/-- JS `setHours(23, 59, 59, 999)` on a date. -/
def endOfDay (d : DateTime) : DateTime :=
  { d with msOfDay := 86399999 }

structure User where
  id : UserId
  name : String
  role : Role
deriving DecidableEq

structure Task where
  id : TaskId
  title : String
  description : String
  status : Status
  priority : Priority
  dueDate : Option DateTime
  createdBy : UserId
  assignedTo : Option UserId
  tags : List String
  isRecurring : Bool
  recurringType : RecurringType
  recurringEndDate : Option DateTime
deriving DecidableEq

inductive NotifType
  | taskAssigned
  | taskUpdated
  | taskCompleted
  | taskDeleted
  | taskReminder
deriving DecidableEq

structure Notif where
  ntype : NotifType
  sender : UserId
  recipient : UserId
  message : String
  relatedTask : Option TaskId
  isRead : Bool
deriving DecidableEq

/-- Persisting a notification record; the `ok` flag models whether the
underlying store write succeeds. -/
def notifSave (ok : Bool) (n : Notif) : Except String Notif :=
  if ok then Except.ok n else Except.error "Notification creation error"

/-- `createNotification` helper: builds the record, tries to save it, and
catches any save failure, returning null instead of propagating. -/
def createNotification (ok : Bool) (ntype : NotifType) (sender recipient : UserId)
    (message : String) (taskId : Option TaskId) : Option Notif :=
  match notifSave ok
      { ntype := ntype, sender := sender, recipient := recipient,
        message := message, relatedTask := taskId, isRead := false } with
  | Except.ok n => some n
  | Except.error _ => Option.none

inductive Action
  | read
  | update
  | delete
deriving DecidableEq

/-- The access decision, as the routes implement it inline: the read condition
is the one in `GET /tasks/:id`, the update/delete condition is the one in the
`isTaskCreatorOrAdmin` middleware. -/
def canAccess (u : User) (t : Task) (a : Action) : Bool :=
  match a with
  | Action.read =>
      u.role == Role.admin || t.createdBy == u.id ||
        (match t.assignedTo with
         | some x => x == u.id
         | Option.none => false)
  | Action.update | Action.delete =>
      u.role == Role.admin || t.createdBy == u.id ||
        (u.role == Role.manager &&
          (match t.assignedTo with
           | some x => x == u.id
           | Option.none => false))

inductive GetTaskResult
  | notFound
  | forbidden
  | found (t : Task)
deriving DecidableEq

/-- `GET /tasks/:id`: 404 for an absent task, 403 when the inline access check
fails, otherwise the task. -/
def getTaskById (u : User) (mt : Option Task) : GetTaskResult :=
  match mt with
  | Option.none => GetTaskResult.notFound
  | some task =>
      if u.role != Role.admin && task.createdBy != u.id &&
          !(match task.assignedTo with
            | some x => x == u.id
            | Option.none => false) then
        GetTaskResult.forbidden
      else GetTaskResult.found task

inductive GateResult
  | notFound
  | forbidden
  | proceed (t : Task)
deriving DecidableEq

/-- The `isTaskCreatorOrAdmin` middleware guarding PUT and DELETE. -/
def isTaskCreatorOrAdmin (u : User) (mt : Option Task) : GateResult :=
  match mt with
  | Option.none => GateResult.notFound
  | some task =>
      if u.role == Role.admin || task.createdBy == u.id ||
          (u.role == Role.manager &&
            (match task.assignedTo with
             | some x => x == u.id
             | Option.none => false)) then
        GateResult.proceed task
      else GateResult.forbidden

/-- Lowercase a character, as the case-insensitive regex option treats ASCII. -/
def charLower (c : Char) : Char :=
  if 65 ≤ c.toNat && c.toNat ≤ 90 then Char.ofNat (c.toNat + 32) else c

def listIsPre : List Char → List Char → Bool
  | [], _ => true
  | _ :: _, [] => false
  | a :: as, b :: bs => a == b && listIsPre as bs

def listHasSub (pat : List Char) : List Char → Bool
  | [] => pat.isEmpty
  | c :: rest => listIsPre pat (c :: rest) || listHasSub pat rest

/-- Case-insensitive substring test, the semantics of
`{ $regex: search, $options: 'i' }` on a plain search string. -/
def containsCI (hay pat : String) : Bool :=
  listHasSub (pat.toList.map charLower) (hay.toList.map charLower)

inductive StatusCond
  | eqS (s : Status)
  | neCompleted
deriving DecidableEq

inductive DueCond
  | between (lo hi : DateTime)
  | before (now : DateTime)
deriving DecidableEq

inductive OrCond
  | search (s : String)
  | visibility (uid : UserId)
deriving DecidableEq

/-- The mongo query object the list route builds up field by field; a later
assignment to a field replaces an earlier one, exactly as in the source. -/
structure TaskQuery where
  status : Option StatusCond := Option.none
  priority : Option Priority := Option.none
  orC : Option OrCond := Option.none
  assignedTo : Option UserId := Option.none
  createdBy : Option UserId := Option.none
  dueDate : Option DueCond := Option.none
deriving DecidableEq

inductive UserFilter
  | me
  | someUser (id : UserId)
deriving DecidableEq

structure ListFilters where
  status : Option Status := Option.none
  priority : Option Priority := Option.none
  dueDate : Option DateTime := Option.none
  search : Option String := Option.none
  assignedTo : Option UserFilter := Option.none
  createdBy : Option UserFilter := Option.none
  overdue : Bool := false
deriving DecidableEq

/-- Query construction of `GET /tasks`, in source order: status, priority,
search, assignedTo, createdBy, dueDate, overdue, then the non-admin
visibility restriction. -/
def buildQuery (u : User) (f : ListFilters) (now : DateTime) : TaskQuery :=
  let q : TaskQuery := {}
  let q := match f.status with
    | some s => { q with status := some (StatusCond.eqS s) }
    | Option.none => q
  let q := match f.priority with
    | some p => { q with priority := some p }
    | Option.none => q
  let q := match f.search with
    | some s => { q with orC := some (OrCond.search s) }
    | Option.none => q
  let q := match f.assignedTo with
    | some UserFilter.me => { q with assignedTo := some u.id }
    | some (UserFilter.someUser i) => { q with assignedTo := some i }
    | Option.none => q
  let q := match f.createdBy with
    | some UserFilter.me => { q with createdBy := some u.id }
    | some (UserFilter.someUser i) => { q with createdBy := some i }
    | Option.none => q
  let q := match f.dueDate with
    | some d => { q with dueDate := some (DueCond.between (startOfDay d) (endOfDay d)) }
    | Option.none => q
  let q := if f.overdue then
      { q with dueDate := some (DueCond.before now), status := some StatusCond.neCompleted }
    else q
  if u.role != Role.admin then
    { q with orC := some (OrCond.visibility u.id) }
  else q

def statusMatch : Option StatusCond → Task → Bool
  | Option.none, _ => true
  | some (StatusCond.eqS s), t => t.status == s
  | some StatusCond.neCompleted, t => t.status != Status.completed

def orMatch : Option OrCond → Task → Bool
  | Option.none, _ => true
  | some (OrCond.search s), t => containsCI t.title s || containsCI t.description s
  | some (OrCond.visibility uid), t =>
      t.createdBy == uid ||
        (match t.assignedTo with
         | some a => a == uid
         | Option.none => false)

def dueMatch : Option DueCond → Task → Bool
  | Option.none, _ => true
  | some (DueCond.between lo hi), t =>
      match t.dueDate with
      | some d => DateTime.leb lo d && DateTime.leb d hi
      | Option.none => false
  | some (DueCond.before now), t =>
      match t.dueDate with
      | some d => DateTime.ltb d now
      | Option.none => false

/-- Whether a stored task satisfies the built query (the document-store
matching semantics: every set field must match). -/
def matchesQuery (q : TaskQuery) (t : Task) : Bool :=
  statusMatch q.status t &&
  (match q.priority with
   | some p => t.priority == p
   | Option.none => true) &&
  orMatch q.orC t &&
  (match q.assignedTo with
   | some a => t.assignedTo == some a
   | Option.none => true) &&
  (match q.createdBy with
   | some c => t.createdBy == c
   | Option.none => true) &&
  dueMatch q.dueDate t

def queryResults (u : User) (f : ListFilters) (now : DateTime) (store : List Task) : List Task :=
  store.filter (fun t => matchesQuery (buildQuery u f now) t)

structure ListResult where
  tasks : List Task
  total : Nat
  page : Nat
  pages : Nat
deriving DecidableEq

/-- `GET /tasks`: filter, then `skip = (page - 1) * limit` and `limit`; the
sort is a permutation of the filtered list and is left out, so the membership
and pagination-count facts below are unaffected by it. -/
def listTasks (u : User) (f : ListFilters) (now : DateTime) (store : List Task)
    (page limit : Nat) : ListResult :=
  let filtered := queryResults u f now store
  { tasks := (filtered.drop ((page - 1) * limit)).take limit
    total := filtered.length
    page := page
    pages := (filtered.length + limit - 1) / limit }

structure CreateBody where
  title : String
  description : String := ""
  status : Option Status := Option.none
  priority : Option Priority := Option.none
  dueDate : Option DateTime := Option.none
  assignedTo : Option UserId := Option.none
  tags : Option (List String) := Option.none
  isRecurring : Option Bool := Option.none
  recurringType : Option RecurringType := Option.none
  recurringEndDate : Option DateTime := Option.none
deriving DecidableEq

/-- `POST /tasks`: build the task from the body with `createdBy` forced to the
principal and the schema defaults filled in, then notify the assignee when one
exists and differs from the creator. -/
def createTask (u : User) (b : CreateBody) (newId : TaskId) (notifOk : Bool) :
    Task × List Notif :=
  let task : Task :=
    { id := newId
      title := b.title
      description := b.description
      status := b.status.getD Status.todo
      priority := b.priority.getD Priority.medium
      dueDate := b.dueDate
      createdBy := u.id
      assignedTo := b.assignedTo
      tags := b.tags.getD []
      isRecurring := b.isRecurring.getD false
      recurringType := b.recurringType.getD RecurringType.none
      recurringEndDate := b.recurringEndDate }
  let notifs :=
    match task.assignedTo with
    | some a =>
        if a != u.id then
          (createNotification notifOk NotifType.taskAssigned u.id a
            (u.name ++ " assigned you a new task: " ++ task.title) (some task.id)).toList
        else []
    | Option.none => []
  (task, notifs)

/-- `createRecurringTask` helper: clone the task, compute the next due date
from the original one per recurring type, stop when the recurring end date is
exceeded. A missing due date makes the eventual save fail and be caught, so
nothing is produced. -/
def createRecurringTask (task : Task) (recurringType : RecurringType) (newId : TaskId) :
    Option Task :=
  match task.dueDate with
  | Option.none => Option.none
  | some originalDueDate =>
      let newDueDate? : Option DateTime :=
        match recurringType with
        | RecurringType.daily => some (originalDueDate.addDays 1)
        | RecurringType.weekly => some (originalDueDate.addDays 7)
        | RecurringType.monthly => some originalDueDate.addOneMonth
        | RecurringType.none => Option.none
      match newDueDate? with
      | Option.none => Option.none
      | some newDueDate =>
          let spawn : Task :=
            { id := newId
              title := task.title
              description := task.description
              status := Status.todo
              priority := task.priority
              dueDate := some newDueDate
              createdBy := task.createdBy
              assignedTo := task.assignedTo
              tags := task.tags
              isRecurring := task.isRecurring
              recurringType := task.recurringType
              recurringEndDate := task.recurringEndDate }
          match task.recurringEndDate with
          | some endD => if DateTime.ltb endD newDueDate then Option.none else some spawn
          | Option.none => some spawn

/-- A PUT body: `some` means the key is present. `assignedTo` and `createdBy`
carry no enum validation in the route, and the handler copies every present
body key into the task, `createdBy` included. -/
structure UpdateBody where
  title : Option String := Option.none
  description : Option String := Option.none
  status : Option Status := Option.none
  priority : Option Priority := Option.none
  dueDate : Option DateTime := Option.none
  assignedTo : Option (Option UserId) := Option.none
  tags : Option (List String) := Option.none
  isRecurring : Option Bool := Option.none
  recurringType : Option RecurringType := Option.none
  recurringEndDate : Option DateTime := Option.none
  createdBy : Option UserId := Option.none
deriving DecidableEq

/-- The `Object.keys(req.body).forEach` loop: every present body key is copied
onto the task. -/
def applyBody (t : Task) (b : UpdateBody) : Task :=
  { t with
    title := b.title.getD t.title
    description := b.description.getD t.description
    status := b.status.getD t.status
    priority := b.priority.getD t.priority
    dueDate := match b.dueDate with
      | some d => some d
      | Option.none => t.dueDate
    assignedTo := match b.assignedTo with
      | some v => v
      | Option.none => t.assignedTo
    tags := b.tags.getD t.tags
    isRecurring := b.isRecurring.getD t.isRecurring
    recurringType := b.recurringType.getD t.recurringType
    recurringEndDate := match b.recurringEndDate with
      | some d => some d
      | Option.none => t.recurringEndDate
    createdBy := b.createdBy.getD t.createdBy }

structure UpdateResult where
  task : Task
  notifs : List Notif
  spawned : Option Task
deriving DecidableEq

/-- `PUT /tasks/:id` after the middleware and validation: capture the old
assignee, copy the body onto the task, compute the recurrence trigger (the
source does this after the copy), save, then dispatch notifications and the
recurrence spawn. -/
def updateTask (u : User) (t : Task) (b : UpdateBody) (newId : TaskId) (notifOk : Bool) :
    UpdateResult :=
  let oldAssignedTo := t.assignedTo
  let task := applyBody t b
  let wasCompleted :=
    b.status == some Status.completed &&
    task.status != Status.completed &&
    task.isRecurring &&
    task.recurringType != RecurringType.none
  let assignNotif : List Notif :=
    match b.assignedTo with
    | some (some newA) =>
        if oldAssignedTo != some newA && newA != u.id then
          (createNotification notifOk NotifType.taskAssigned u.id newA
            (u.name ++ " assigned you a task: " ++ task.title) (some task.id)).toList
        else []
    | _ => []
  let statusNotif : List Notif :=
    match b.status, oldAssignedTo with
    | some s, some old =>
        if old != u.id then
          (createNotification notifOk NotifType.taskUpdated u.id old
            (u.name ++ " updated the status of task \"" ++ task.title ++ "\" to " ++ statusStr s)
            (some task.id)).toList
        else []
    | _, _ => []
  let spawned := if wasCompleted then createRecurringTask task task.recurringType newId
    else Option.none
  let spawnNotif : List Notif :=
    match spawned with
    | some newTask =>
        match newTask.assignedTo with
        | some a =>
            (createNotification notifOk NotifType.taskAssigned u.id a
              ("A recurring task has been created: " ++ newTask.title) (some newTask.id)).toList
        | Option.none => []
    | Option.none => []
  { task := task, notifs := assignNotif ++ statusNotif ++ spawnNotif, spawned := spawned }

inductive Effect
  | persistNotif (n : Notif)
  | removeTask (id : TaskId)
deriving DecidableEq

/-- `DELETE /tasks/:id` after the middleware: first the notification to the
assignee (when one exists and is not the deleter), with a null `relatedTask`;
then the removal of the task record. -/
def deleteTaskEffects (u : User) (task : Task) (notifOk : Bool) : List Effect :=
  let notifEffects :=
    match task.assignedTo with
    | some a =>
        if a != u.id then
          ((createNotification notifOk NotifType.taskDeleted u.id a
            (u.name ++ " deleted a task that was assigned to you: " ++ task.title)
            Option.none).toList).map Effect.persistNotif
        else []
    | Option.none => []
  notifEffects ++ [Effect.removeTask task.id]

/-- The `updates` object of a batch request; `extraKeys` are the names of any
present keys outside the modelled three. -/
structure BatchUpdates where
  status : Option Status := Option.none
  priority : Option Priority := Option.none
  assignedTo : Option UserId := Option.none
  extraKeys : List String := []
deriving DecidableEq

def batchKeys (b : BatchUpdates) : List String :=
  (if b.status.isSome then ["status"] else []) ++
  (if b.priority.isSome then ["priority"] else []) ++
  (if b.assignedTo.isSome then ["assignedTo"] else []) ++
  b.extraKeys

def allowedUpdates : List String := ["status", "priority", "assignedTo"]

/-- The `$set` a batch update applies to each matched task. -/
def applyBatch (b : BatchUpdates) (t : Task) : Task :=
  { t with
    status := b.status.getD t.status
    priority := b.priority.getD t.priority
    assignedTo := match b.assignedTo with
      | some a => some a
      | Option.none => t.assignedTo }

inductive BatchOutcome
  | forbidden
  | badRequest (msg : String)
  | success
deriving DecidableEq

structure BatchResult where
  outcome : BatchOutcome
  store : List Task
  notifs : List Notif
deriving DecidableEq

/-- `POST /tasks/batch-update`: the `hasRole('admin', 'manager')` gate, the
input checks, the allow-list check, then `updateMany` over the id set and one
notification per matched task when `assignedTo` was included. -/
def batchUpdateTasks (u : User) (taskIds : List TaskId) (updates : Option BatchUpdates)
    (store : List Task) (notifOk : Bool) : BatchResult :=
  if u.role != Role.admin && u.role != Role.manager then
    { outcome := BatchOutcome.forbidden, store := store, notifs := [] }
  else if taskIds.isEmpty then
    { outcome := BatchOutcome.badRequest "Task IDs array is required",
      store := store, notifs := [] }
  else
    match updates with
    | Option.none =>
        { outcome := BatchOutcome.badRequest "Updates object is required",
          store := store, notifs := [] }
    | some b =>
        if (batchKeys b).isEmpty then
          { outcome := BatchOutcome.badRequest "Updates object is required",
            store := store, notifs := [] }
        else if !((batchKeys b).all (fun k => allowedUpdates.contains k)) then
          { outcome := BatchOutcome.badRequest
              "Invalid updates. Only status, priority, and assignedTo can be batch updated.",
            store := store, notifs := [] }
        else
          let newStore := store.map (fun t =>
            if taskIds.contains t.id then applyBatch b t else t)
          let notifs :=
            match b.assignedTo with
            | some a =>
                (newStore.filter (fun t => taskIds.contains t.id)).filterMap (fun t =>
                  createNotification notifOk NotifType.taskAssigned u.id a
                    (u.name ++ " assigned you a task: " ++ t.title) (some t.id))
            | Option.none => []
          { outcome := BatchOutcome.success, store := newStore, notifs := notifs }

/-! Concrete inputs used by the counterexamples and witnesses below. -/

def uAdmin : User := ⟨1, "A", Role.admin⟩

def uMember : User := ⟨1, "A", Role.user⟩

def baseTask : Task :=
  { id := 1
    title := "t"
    description := ""
    status := Status.todo
    priority := Priority.medium
    dueDate := Option.none
    createdBy := 1
    assignedTo := Option.none
    tags := []
    isRecurring := false
    recurringType := RecurringType.none
    recurringEndDate := Option.none }

def now0 : DateTime := ⟨2024, 0, 10, 0⟩

def c3Task : Task :=
  { baseTask with
    isRecurring := true
    recurringType := RecurringType.daily
    dueDate := some ⟨2024, 0, 10, 0⟩ }

def c3Body : UpdateBody := { status := some Status.completed }

def c4Body : UpdateBody := { createdBy := some 2 }

def c5Updates : BatchUpdates := { assignedTo := some 1 }

def c5Task : Task := { baseTask with id := 10, createdBy := 2 }

def c5wBody : CreateBody := { title := "t", assignedTo := some 2 }

def c5wNotif : Notif :=
  ⟨NotifType.taskAssigned, 1, 2, "A assigned you a new task: t", some 7, false⟩

def c6Task : Task := { baseTask with title := "hello" }

def c6Filters : ListFilters := { search := some "zzz" }

def c7Task : Task := { baseTask with id := 3, assignedTo := some 2 }

def c7Body : UpdateBody := { status := some Status.todo }

def c7wNotif : Notif :=
  ⟨NotifType.taskUpdated, 1, 2, "A updated the status of task \"t\" to todo", some 3, false⟩

def c8Bad : BatchUpdates := { status := some Status.todo, extraKeys := ["title"] }

def c8Good : BatchUpdates := { status := some Status.completed }

def c8Task : Task := { baseTask with id := 10 }

def c10Task : Task := { baseTask with id := 3, assignedTo := some 2 }

def c10Notif : Notif :=
  ⟨NotifType.taskDeleted, 1, 2, "A deleted a task that was assigned to you: t", Option.none, false⟩

/-! Helper lemmas shared by the claim theorems. -/

theorem buildQuery_orC_nonadmin (u : User) (f : ListFilters) (now : DateTime)
    (h : u.role ≠ Role.admin) : (buildQuery u f now).orC = some (OrCond.visibility u.id) := by
  have hb : (u.role != Role.admin) = true := by
    cases hr : u.role <;> simp_all
  simp [buildQuery, hb]

theorem matchesQuery_orMatch (q : TaskQuery) (t : Task) (h : matchesQuery q t = true) :
    orMatch q.orC t = true := by
  simp only [matchesQuery, Bool.and_eq_true] at h
  exact h.1.1.1.2

theorem orMatch_visibility (uid : UserId) (t : Task)
    (h : orMatch (some (OrCond.visibility uid)) t = true) :
    t.createdBy = uid ∨ t.assignedTo = some uid := by
  rcases ht : t.assignedTo with _ | a
  · simp [orMatch, ht] at h
    exact Or.inl h
  · simp [orMatch, ht] at h
    rcases h with h | h
    · exact Or.inl h
    · exact Or.inr (by simp [ht, h])

theorem buildQuery_orC_admin_search (u : User) (f : ListFilters) (now : DateTime) (s : String)
    (hrole : u.role = Role.admin) (hs : f.search = some s) :
    (buildQuery u f now).orC = some (OrCond.search s) := by
  have hb : (u.role != Role.admin) = false := by rw [hrole]; rfl
  rcases f with ⟨fst, fpr, fdu, fse, fas, fcr, fov⟩
  simp only at hs
  subst hs
  cases fov <;> rcases fdu with _ | d <;> rcases fcr with _ | (_ | c) <;>
    rcases fas with _ | (_ | a) <;> simp [buildQuery, hb]

theorem buildQuery_search_overwritten (u : User) (f : ListFilters) (now : DateTime) (s : String)
    (h : u.role ≠ Role.admin) :
    buildQuery u { f with search := some s } now
      = buildQuery u { f with search := Option.none } now := by
  rcases u with ⟨uid, uname, urole⟩
  rcases f with ⟨fst, fpr, fdu, fse, fas, fcr, fov⟩
  cases urole
  case admin => exact absurd rfl h
  all_goals
    rcases fst with _ | a1 <;> rcases fpr with _ | a2 <;> cases fov <;>
      rcases fdu with _ | a3 <;> rcases fcr with _ | (_ | c) <;>
      rcases fas with _ | (_ | a) <;> rfl

theorem updateTask_wasCompleted_false (t : Task) (b : UpdateBody) :
    (b.status == some Status.completed &&
      ((applyBody t b).status != Status.completed) &&
      (applyBody t b).isRecurring &&
      ((applyBody t b).recurringType != RecurringType.none)) = false := by
  rcases hbs : b.status with _ | s
  · simp [hbs]
  · rcases s <;> simp [applyBody, hbs]

theorem updateTask_spawned_none (u : User) (t : Task) (b : UpdateBody) (newId : TaskId)
    (ok : Bool) : (updateTask u t b newId ok).spawned = Option.none := by
  rcases hbs : b.status with _ | s
  · simp [updateTask, applyBody, hbs]
  · rcases s <;> simp [updateTask, applyBody, hbs]

theorem updateTask_notifs_not_self (u : User) (t : Task) (b : UpdateBody) (newId : TaskId)
    (ok : Bool) (n : Notif) (hn : n ∈ (updateTask u t b newId ok).notifs) :
    n.recipient ≠ u.id := by
  intro hrec
  cases ok <;>
    rcases hba : b.assignedTo with _ | (_ | a) <;> rcases hbs : b.status with _ | s <;>
      rcases hta : t.assignedTo with _ | old <;>
      simp [updateTask, applyBody, hba, hbs, hta, createNotification, notifSave,
        updateTask_wasCompleted_false] at hn <;>
      (try rcases hn with hn | hn) <;> obtain ⟨hne, rfl⟩ := hn <;> simp_all

theorem createTask_notifs_not_self (u : User) (b : CreateBody) (newId : TaskId) (ok : Bool)
    (n : Notif) (hn : n ∈ (createTask u b newId ok).2) : n.recipient ≠ u.id := by
  intro hrec
  cases ok <;> rcases hba : b.assignedTo with _ | a <;>
    simp [createTask, hba, createNotification, notifSave] at hn <;>
    obtain ⟨hne, rfl⟩ := hn <;> simp_all

theorem deleteTask_notifs_not_self (u : User) (t : Task) (ok : Bool) (n : Notif)
    (hn : Effect.persistNotif n ∈ deleteTaskEffects u t ok) : n.recipient ≠ u.id := by
  intro hrec
  cases ok <;> rcases hta : t.assignedTo with _ | a <;>
    simp [deleteTaskEffects, hta, createNotification, notifSave] at hn <;>
    obtain ⟨hne, rfl⟩ := hn <;> simp_all

/-! The claim theorems. -/

/-- Claim C1: for every principal and task, read access holds iff the
principal is admin, the creator, or the assignee; update/delete access holds
iff the principal is admin, the creator, or a manager who is the assignee;
any other combination is denied, and on an existing task a denial is reported
as forbidden (403), distinct from not-found (404) for an absent task, both on
the read path and on the update/delete middleware. -/
theorem c1_access_contract (u : User) (t : Task) :
    (canAccess u t Action.read = true ↔
      (u.role = Role.admin ∨ t.createdBy = u.id ∨ t.assignedTo = some u.id)) ∧
    (canAccess u t Action.update = true ↔
      (u.role = Role.admin ∨ t.createdBy = u.id ∨
        (u.role = Role.manager ∧ t.assignedTo = some u.id))) ∧
    (canAccess u t Action.delete = true ↔
      (u.role = Role.admin ∨ t.createdBy = u.id ∨
        (u.role = Role.manager ∧ t.assignedTo = some u.id))) ∧
    (getTaskById u Option.none = GetTaskResult.notFound) ∧
    (getTaskById u (some t) = GetTaskResult.forbidden ↔ canAccess u t Action.read = false) ∧
    (isTaskCreatorOrAdmin u Option.none = GateResult.notFound) ∧
    (isTaskCreatorOrAdmin u (some t) = GateResult.forbidden ↔
      canAccess u t Action.update = false) := by
  rcases u with ⟨uid, uname, urole⟩
  refine ⟨?_, ?_, ?_, rfl, ?_, rfl, ?_⟩ <;>
    cases urole <;> rcases ht : t.assignedTo with _ | a <;>
      simp [canAccess, getTaskById, isTaskCreatorOrAdmin, ht]

/-- Claim C2: whatever filters a non-admin principal supplies, the list result
never contains a task where the principal is neither the creator nor the
assignee. -/
theorem c2_list_visibility_invariant (u : User) (f : ListFilters) (now : DateTime)
    (store : List Task) (page limit : Nat) (t : Task) (hrole : u.role ≠ Role.admin)
    (hmem : t ∈ (listTasks u f now store page limit).tasks) :
    t.createdBy = u.id ∨ t.assignedTo = some u.id := by
  have h1 : t ∈ queryResults u f now store := by
    have h2 := List.take_subset limit _ hmem
    exact List.drop_subset _ _ h2
  have h3 := (List.mem_filter.mp h1).2
  have h4 := matchesQuery_orMatch _ _ h3
  rw [buildQuery_orC_nonadmin u f now hrole] at h4
  exact orMatch_visibility u.id t h4

theorem c2_list_visibility_invariant_witness :
    baseTask.createdBy = uMember.id ∨ baseTask.assignedTo = some uMember.id :=
  c2_list_visibility_invariant uMember {} now0 [baseTask] 1 10 baseTask
    (by decide) (by decide)

/-- Claim C3: the recurrence trigger is computed only after the request body
has been copied onto the task, so on a body that sets status to completed the
clause requiring the task status to differ from completed is already false:
no update ever spawns a recurring successor, including the claimed scenario
(a daily recurring task with status todo, dueDate 2024-01-10 and no
recurringEndDate, updated to completed). -/
theorem c3_recurrence_never_spawned :
    (∀ (u : User) (t : Task) (b : UpdateBody) (newId : TaskId) (ok : Bool),
      (updateTask u t b newId ok).spawned = Option.none) ∧
    (updateTask uAdmin c3Task c3Body 7 true).spawned = Option.none ∧
    c3Task.status = Status.todo ∧ c3Task.isRecurring = true ∧
    c3Task.recurringType = RecurringType.daily ∧
    c3Body.status = some Status.completed :=
  ⟨fun u t b newId ok => updateTask_spawned_none u t b newId ok,
    updateTask_spawned_none uAdmin c3Task c3Body 7 true, rfl, rfl, rfl, rfl⟩

/-- Claim C4 counterexample: an update whose body carries a createdBy key
overwrites the task's createdBy, so the field is not immutable under
arbitrary authorized updates. -/
theorem c4_counterexample :
    baseTask.createdBy = 1 ∧ (updateTask uAdmin baseTask c4Body 9 true).task.createdBy = 2 := by
  decide

/-- Claim C4 as amended: for every update whose request body does not contain
a createdBy key, the task's createdBy after the update equals its value
before the update. -/
theorem c4_createdBy_preserved (u : User) (t : Task) (b : UpdateBody) (newId : TaskId)
    (ok : Bool) (h : b.createdBy = Option.none) :
    (updateTask u t b newId ok).task.createdBy = t.createdBy := by
  simp [updateTask, applyBody, h]

theorem c4_createdBy_preserved_witness :
    (updateTask uAdmin baseTask {} 9 true).task.createdBy = baseTask.createdBy :=
  c4_createdBy_preserved uAdmin baseTask {} 9 true rfl

/-- Claim C5 counterexample: an admin batch-assigning tasks to themselves
receives a task-assigned notification addressed to themselves; the batch path
has no self-notification check. -/
theorem c5_counterexample :
    ((batchUpdateTasks uAdmin [10] (some c5Updates) [c5Task] true).notifs.any
      (fun n => n.recipient == uAdmin.id)) = true := by
  decide

/-- Claim C5 as amended: self-notification is suppressed on task create, on
single-task update, and on delete; only the batch-update path (and the
unreachable recurrence-spawn path) lacks the check. -/
theorem c5_no_self_notification (u : User) (cb : CreateBody) (t : Task) (b : UpdateBody)
    (newId newId2 : TaskId) (ok : Bool) :
    (∀ n ∈ (createTask u cb newId ok).2, n.recipient ≠ u.id) ∧
    (∀ n ∈ (updateTask u t b newId2 ok).notifs, n.recipient ≠ u.id) ∧
    (∀ n, Effect.persistNotif n ∈ deleteTaskEffects u t ok → n.recipient ≠ u.id) :=
  ⟨fun n hn => createTask_notifs_not_self u cb newId ok n hn,
   fun n hn => updateTask_notifs_not_self u t b newId2 ok n hn,
   fun n hn => deleteTask_notifs_not_self u t ok n hn⟩

theorem c5_no_self_notification_witness : c5wNotif.recipient ≠ uMember.id :=
  (c5_no_self_notification uMember c5wBody baseTask {} 7 7 true).1 c5wNotif (by decide)

/-- Claim C6 counterexample: for a non-admin principal the visibility
disjunction overwrites the search condition, so a task matching neither the
title nor the description search still appears in the result. -/
theorem c6_counterexample :
    (c6Task ∈ (listTasks uMember c6Filters now0 [c6Task] 1 10).tasks) ∧
    containsCI c6Task.title "zzz" = false ∧
    containsCI c6Task.description "zzz" = false := by
  decide

/-- Claim C6 as amended: for an admin principal every listed task satisfies
the search OR (title or description contains the search string,
case-insensitively), conjoined with the other filters; for a non-admin
principal the visibility disjunction overwrites the search condition, so the
result is independent of the search string. -/
theorem c6_search_scope (u : User) (f : ListFilters) (s : String) (now : DateTime)
    (store : List Task) (page limit : Nat) :
    (u.role = Role.admin → f.search = some s →
      ∀ t ∈ (listTasks u f now store page limit).tasks,
        (containsCI t.title s || containsCI t.description s) = true) ∧
    (u.role ≠ Role.admin →
      listTasks u { f with search := some s } now store page limit =
        listTasks u { f with search := Option.none } now store page limit) := by
  constructor
  · intro hrole hs t hmem
    have h1 : t ∈ queryResults u f now store := by
      have h2 := List.take_subset limit _ hmem
      exact List.drop_subset _ _ h2
    have h3 := (List.mem_filter.mp h1).2
    have h4 := matchesQuery_orMatch _ _ h3
    rw [buildQuery_orC_admin_search u f now s hrole hs] at h4
    simpa [orMatch] using h4
  · intro h
    simp only [listTasks, queryResults, buildQuery_search_overwritten u f now s h]

theorem c6_search_scope_witness :
    listTasks uMember { c6Filters with search := some "zzz" } now0 [c6Task] 1 10 =
      listTasks uMember { c6Filters with search := Option.none } now0 [c6Task] 1 10 :=
  (c6_search_scope uMember c6Filters "zzz" now0 [c6Task] 1 10).2 (by decide)

/-- Claim C7 counterexample: an update whose body sets status to the value it
already has (todo, unchanged) still produces a task-updated notification to
the previous assignee, so the notification is not conditioned on the status
actually changing. -/
theorem c7_counterexample :
    c7Task.status = Status.todo ∧ c7Body.status = some Status.todo ∧
    ((updateTask uAdmin c7Task c7Body 9 true).notifs.any
      (fun n => n.ntype == NotifType.taskUpdated)) = true := by
  decide

/-- Claim C7 as amended: on a task update a task-updated notification is
created iff the body contains a status key (whether or not its value differs
from the pre-update status), a previous assignee exists, and that previous
assignee is not the acting principal; every such notification is addressed to
the previous assignee. -/
theorem c7_update_notification_condition (u : User) (t : Task) (b : UpdateBody)
    (newId : TaskId) :
    ((updateTask u t b newId true).notifs.any (fun n => n.ntype == NotifType.taskUpdated))
      = (b.status.isSome &&
          (match t.assignedTo with
           | some old => old != u.id
           | Option.none => false)) ∧
    (∀ n ∈ (updateTask u t b newId true).notifs, n.ntype = NotifType.taskUpdated →
      some n.recipient = t.assignedTo) := by
  constructor
  · rcases hba : b.assignedTo with _ | (_ | a) <;> rcases hbs : b.status with _ | s <;>
      rcases hta : t.assignedTo with _ | old <;>
      simp [updateTask, applyBody, hba, hbs, hta, createNotification, notifSave,
        updateTask_wasCompleted_false] <;>
      (try split_ifs) <;> (try simp_all)
  · intro n hn hty
    rcases hba : b.assignedTo with _ | (_ | a) <;> rcases hbs : b.status with _ | s <;>
      rcases hta : t.assignedTo with _ | old <;>
      simp [updateTask, applyBody, hba, hbs, hta, createNotification, notifSave,
        updateTask_wasCompleted_false] at hn <;>
      (try rcases hn with hn | hn) <;> obtain ⟨hne, rfl⟩ := hn <;> simp_all

theorem c7_update_notification_condition_witness :
    ((updateTask uAdmin c7Task c7Body 9 true).notifs.any
      (fun n => n.ntype == NotifType.taskUpdated)) = true ∧
    some c7wNotif.recipient = c7Task.assignedTo :=
  ⟨(c7_update_notification_condition uAdmin c7Task c7Body 9).1.trans (by decide),
   (c7_update_notification_condition uAdmin c7Task c7Body 9).2 c7wNotif
     (by decide) (by decide)⟩

/-- Claim C8: for an admin or manager, a batch update whose updates object
contains any key outside the status/priority/assignedTo allow-list is
rejected with a validation error and leaves the store unchanged; when all
keys are allowed (and the inputs are non-empty) it succeeds and applies the
same update to exactly the tasks in the id set. -/
theorem c8_batch_allowlist (u : User) (taskIds : List TaskId) (b : BatchUpdates)
    (store : List Task) (ok : Bool)
    (hrole : u.role = Role.admin ∨ u.role = Role.manager) :
    (((batchKeys b).all (fun k => allowedUpdates.contains k)) = false →
      (∃ msg, (batchUpdateTasks u taskIds (some b) store ok).outcome
        = BatchOutcome.badRequest msg) ∧
      (batchUpdateTasks u taskIds (some b) store ok).store = store) ∧
    (taskIds ≠ [] → ((batchKeys b).all (fun k => allowedUpdates.contains k)) = true →
      (batchKeys b) ≠ [] →
      (batchUpdateTasks u taskIds (some b) store ok).outcome = BatchOutcome.success ∧
      (batchUpdateTasks u taskIds (some b) store ok).store =
        store.map (fun t => if taskIds.contains t.id then applyBatch b t else t)) := by
  have hb : (u.role != Role.admin && u.role != Role.manager) = false := by
    rcases hrole with h | h <;> simp [h]
  constructor
  · intro hall
    have hkeys : (batchKeys b).isEmpty = false := by
      rcases hk : batchKeys b with _ | ⟨k, ks⟩
      · rw [hk] at hall; simp at hall
      · rfl
    have hex : ∃ x ∈ batchKeys b, x ∉ allowedUpdates := by
      simpa using hall
    rcases hids : taskIds with _ | ⟨i, is2⟩
    · exact ⟨⟨"Task IDs array is required", by simp [batchUpdateTasks, hb]⟩,
        by simp [batchUpdateTasks, hb]⟩
    · refine ⟨⟨"Invalid updates. Only status, priority, and assignedTo can be batch updated.",
        ?_⟩, ?_⟩ <;> simp [batchUpdateTasks, hb, hkeys, hex]
  · intro hne hall hkne
    have hkeys : (batchKeys b).isEmpty = false := by
      rcases hk : batchKeys b with _ | ⟨k, ks⟩
      · exact absurd hk hkne
      · rfl
    have hids : taskIds.isEmpty = false := by
      rcases hk : taskIds with _ | ⟨i, is2⟩
      · exact absurd hk hne
      · rfl
    have hnex : ¬ ∃ x ∈ batchKeys b, x ∉ allowedUpdates := by
      simpa using hall
    constructor <;> simp [batchUpdateTasks, hb, hkeys, hids, hnex]

theorem c8_batch_allowlist_witness :
    (batchUpdateTasks uAdmin [10] (some c8Bad) [c8Task] true).store = [c8Task] ∧
    (batchUpdateTasks uAdmin [10] (some c8Good) [c8Task] true).outcome
      = BatchOutcome.success :=
  ⟨((c8_batch_allowlist uAdmin [10] c8Bad [c8Task] true (Or.inl rfl)).1 (by decide)).2,
   ((c8_batch_allowlist uAdmin [10] c8Good [c8Task] true (Or.inl rfl)).2
      (by decide) (by decide) (by decide)).1⟩

/-- Claim C9: a failed notification persist is swallowed: with the persist
failing, the created task, the updated task and spawn outcome, the delete's
final removal effect, and the batch outcome and store are identical to the
success case — the mutation completes the same way and no failure
propagates. -/
theorem c9_notification_failure_recovered (u : User) (cb : CreateBody) (newId : TaskId)
    (t : Task) (b : UpdateBody) (newId2 : TaskId) (ids : List TaskId)
    (bu : Option BatchUpdates) (store : List Task) :
    (createTask u cb newId false).1 = (createTask u cb newId true).1 ∧
    (updateTask u t b newId2 false).task = (updateTask u t b newId2 true).task ∧
    (updateTask u t b newId2 false).spawned = (updateTask u t b newId2 true).spawned ∧
    (deleteTaskEffects u t false).getLast? = some (Effect.removeTask t.id) ∧
    (deleteTaskEffects u t true).getLast? = some (Effect.removeTask t.id) ∧
    (batchUpdateTasks u ids bu store false).outcome
      = (batchUpdateTasks u ids bu store true).outcome ∧
    (batchUpdateTasks u ids bu store false).store
      = (batchUpdateTasks u ids bu store true).store := by
  refine ⟨rfl, rfl, rfl, ?_, ?_, ?_, ?_⟩
  · simp [deleteTaskEffects]
  · simp [deleteTaskEffects]
  · rcases bu with _ | b2
    · rfl
    · simp only [batchUpdateTasks]
      repeat' split
      all_goals rfl
  · rcases bu with _ | b2
    · rfl
    · simp only [batchUpdateTasks]
      repeat' split
      all_goals rfl

/-- Claim C10: every notification the delete path persists is a task-deleted
notification whose relatedTask reference is null, the removal of the task
record is the last effect, and everything preceding it is notification
persistence — so the notification is created before the task is removed and
never points at the deleted task. -/
theorem c10_delete_notification_shape (u : User) (t : Task) (ok : Bool) :
    (∀ n, Effect.persistNotif n ∈ deleteTaskEffects u t ok →
      n.ntype = NotifType.taskDeleted ∧ n.relatedTask = Option.none) ∧
    (deleteTaskEffects u t ok).getLast? = some (Effect.removeTask t.id) ∧
    (∀ e ∈ (deleteTaskEffects u t ok).dropLast, ∃ n, e = Effect.persistNotif n) := by
  refine ⟨?_, ?_, ?_⟩
  · intro n hn
    cases ok <;> rcases hta : t.assignedTo with _ | a <;>
      simp [deleteTaskEffects, hta, createNotification, notifSave] at hn <;>
      obtain ⟨hne, rfl⟩ := hn <;> simp_all
  · cases ok <;> rcases hta : t.assignedTo with _ | a <;>
      simp [deleteTaskEffects, hta, createNotification, notifSave]
  · intro e he
    cases ok <;> rcases hta : t.assignedTo with _ | a <;>
      simp [deleteTaskEffects, hta, createNotification, notifSave] at he <;>
      (rcases he with ⟨hne, rfl⟩; exact ⟨_, rfl⟩)

theorem c10_delete_notification_shape_witness :
    (deleteTaskEffects uMember c10Task true).getLast?
      = some (Effect.removeTask c10Task.id) ∧
    c10Notif.ntype = NotifType.taskDeleted ∧ c10Notif.relatedTask = Option.none :=
  ⟨(c10_delete_notification_shape uMember c10Task true).2.1,
   (c10_delete_notification_shape uMember c10Task true).1 c10Notif (by decide)⟩

end TaskManage
